import Mathlib

/-!
Verification of the session/authentication core of the glass-traceability
application.

The embedding below is a shallow model of two source modules:

* `src/hooks/useAuth.ts` (final version): the User Session Manager — the
  `refreshSession` renewal operation with its in-flight guard, error
  classification and retry/backoff policy, the `setupTokenRefresh`
  renewal-timer scheduler, the auth-event handler with its duplicate
  fingerprint suppression, the authentication-loop detector, and `signOut`.
* `src/lib/service-auth.ts`: the Station Service-Credential Manager
  (`ServiceAuthClient`) — `initialize`, `isValidSession`,
  `updatePieceStatus`, `getPieceInfo` and `cleanup`.

Stateful TypeScript (React state plus mutable refs, browser timers, calls
into the Supabase backing store) is modelled by explicit state passing:
each operation is a pure function from the manager state, the current
wall-clock time (milliseconds) and the outcome the backing store would
produce at each suspension point, to the new state, a record of external
effects (store calls made, timers armed, redirects issued) and the value
returned to the caller.
-/

namespace GlassTrace

/-- User role, ordered `viewer < operator < admin` in the application. -/
inductive Role where
  | admin
  | operator
  | viewer
deriving DecidableEq, Repr

/-- A user Profile row (`profiles` table), as in the `Profile` interface of
`useAuth.ts`. -/
structure Profile where
  id : String
  email : String
  name : String
  role : Role
  active : Bool
deriving DecidableEq, Repr

/-- An interactive user Session: the subject's id and the `expires_at`
timestamp (seconds since epoch, absent for sessions without expiry
metadata), as used by `useAuth.ts`. -/
structure Session where
  userId : String
  expiresAt : Option Int
deriving DecidableEq, Repr

/-- The `AuthState` React state of `useAuth.ts`. `lastActivity` is in
milliseconds. -/
structure AuthState where
  user : Option String
  profile : Option Profile
  loading : Bool
  session : Option Session
  isRefreshing : Bool
  lastActivity : Int
deriving DecidableEq, Repr

/-- Full state of one User Session Manager instance: the React `AuthState`
plus the mutable refs of `useAuth.ts` (`retryCountRef`,
`refreshTimeoutRef`, `activityTimeoutRef`, `processedEventsRef`,
`loadingStartRef`) and the `authLoopDetected` flag. An armed timer is
modelled by the delay (ms) it was armed with; `none` means no timer is
pending on that line. `processedEvents` is the insertion-ordered
recently-seen set of auth-event fingerprints. -/
structure UserMgr where
  auth : AuthState
  retryCount : Nat
  refreshTimer : Option Int
  activityTimer : Option Int
  processedEvents : List String
  loadingStart : Option Int
  authLoopDetected : Bool
deriving DecidableEq, Repr

/-- `maxRetries` constant of `useAuth.ts`. -/
def maxRetries : Nat := 3

/-- Outcome of the backing store's `supabase.auth.refreshSession()` call,
classified the way `useAuth.ts` classifies it: success; an error whose
message contains `refresh_token_not_found` / `Invalid Refresh Token`
(invalid credential) either returned or thrown; or any other (transient)
error either returned or thrown. -/
inductive RefreshOutcome where
  | ok (s : Session)
  | errInvalid
  | errOther
  | exnInvalid
  | exnOther
deriving DecidableEq, Repr

/-- External effects of one `refreshSession` invocation: whether the
store's renew operation was invoked, the delay (ms) of a scheduled
forced-retry callback if one was scheduled, and whether `signOut()` was
invoked. -/
structure RefreshEffects where
  storeRefreshCalled : Bool
  scheduledRetryDelay : Option Int
  signOutInvoked : Bool
deriving DecidableEq, Repr

/-- The `{ data, error }` value `refreshSession` returns to its caller;
the error echoes the store outcome, as the code returns the store's error
object unchanged. -/
structure RefreshRet where
  data : Option Session
  error : Option RefreshOutcome
deriving DecidableEq, Repr

/-- `signOut()` of `useAuth.ts`: set `loading`, clear both timers, invoke
the store's sign-out; on store success reset all auth state to the
unauthenticated baseline (with `lastActivity := Date.now()`), on store
failure only clear `loading`. -/
def signOutStep (now : Int) (storeOk : Bool) (m : UserMgr) : UserMgr :=
  let m1 : UserMgr :=
    { m with auth := { m.auth with loading := true },
             refreshTimer := none, activityTimer := none }
  if storeOk then
    { m1 with auth :=
        { user := none, profile := none, session := none,
          loading := false, isRefreshing := false, lastActivity := now } }
  else
    { m1 with auth := { m1.auth with loading := false } }

/-- `refreshSession(forceRefresh)` of `useAuth.ts`. If a renewal is in
flight and the call is not forced, return `{data: null, error: null}` at
once. Otherwise mark renewing, invoke the store's renew operation
(`outcome`), and: on success reset the retry counter; on an
invalid-credential error (returned or thrown) clear user/profile/session
and reset the counter; on any other error increment the counter, and
either schedule a forced retry after `2^n` seconds (n = new count, while
`n < maxRetries`) or invoke `signOut()` (whose store call yields
`signOutOk`) and reset the counter. The `finally` block always clears
`isRefreshing`. -/
def refreshSession (now : Int) (m : UserMgr) (forced : Bool)
    (outcome : RefreshOutcome) (signOutOk : Bool) :
    UserMgr × RefreshEffects × RefreshRet :=
  if m.auth.isRefreshing && !forced then
    (m, ⟨false, none, false⟩, ⟨none, none⟩)
  else
    let m := { m with auth := { m.auth with isRefreshing := true } }
    match outcome with
    | .ok s =>
        ({ m with retryCount := 0,
                  auth := { m.auth with isRefreshing := false } },
         ⟨true, none, false⟩, ⟨some s, none⟩)
    | .errInvalid =>
        ({ m with retryCount := 0,
                  auth := { m.auth with user := none, profile := none,
                                        session := none, isRefreshing := false } },
         ⟨true, none, false⟩, ⟨none, some .errInvalid⟩)
    | .exnInvalid =>
        ({ m with retryCount := 0,
                  auth := { m.auth with user := none, profile := none,
                                        session := none, isRefreshing := false } },
         ⟨true, none, false⟩, ⟨none, some .exnInvalid⟩)
    | .errOther =>
        let n := m.retryCount + 1
        if n < maxRetries then
          ({ m with retryCount := n,
                    auth := { m.auth with isRefreshing := false } },
           ⟨true, some ((2 : Int) ^ n * 1000), false⟩, ⟨none, some .errOther⟩)
        else
          let m2 := signOutStep now signOutOk m
          ({ m2 with retryCount := 0,
                     auth := { m2.auth with isRefreshing := false } },
           ⟨true, none, true⟩, ⟨none, some .errOther⟩)
    | .exnOther =>
        let n := m.retryCount + 1
        if n < maxRetries then
          ({ m with retryCount := n,
                    auth := { m.auth with isRefreshing := false } },
           ⟨true, some ((2 : Int) ^ n * 1000), false⟩, ⟨none, some .exnOther⟩)
        else
          let m2 := signOutStep now signOutOk m
          ({ m2 with retryCount := 0,
                     auth := { m2.auth with isRefreshing := false } },
           ⟨true, none, true⟩, ⟨none, some .exnOther⟩)

/-- `setupTokenRefresh(session)` of `useAuth.ts`: always cancel the
previously armed renewal timer first; if the session has no `expires_at`,
arm nothing. Otherwise with `t` the time (ms) until the renewal deadline
5 minutes before expiry: arm a timer for exactly `t` when `t > 60000`;
arm a short timer `max(t - 10000, 5000)` when `0 < t ≤ 60000`; arm
nothing when `t ≤ 0` (the code then relies on the store's own refresh). -/
def setupTokenRefresh (now : Int) (m : UserMgr) (s : Session) : UserMgr :=
  let m := { m with refreshTimer := none }
  match s.expiresAt with
  | none => m
  | some e =>
      let t : Int := e * 1000 - 5 * 60 * 1000 - now
      if t > 60000 then { m with refreshTimer := some t }
      else if t > 0 then { m with refreshTimer := some (max (t - 10000) 5000) }
      else m

/-- The renewal-timer delay exactly as the specification sentence words
it (refinement definition written from the spec, for comparison with
`setupTokenRefresh`): arm the exact delay when the deadline is more than
1 minute in the future; arm `max(time-to-expiry - 10s, 5s)` when the
deadline has passed but the session has not yet expired; arm nothing when
the session is already expired (and in any situation the sentence does
not cover). -/
def setupTokenRefreshSpec (now : Int) (s : Session) : Option Int :=
  match s.expiresAt with
  | none => none
  | some e =>
      let expiry := e * 1000
      let deadline := expiry - 5 * 60 * 1000
      if deadline - now > 60000 then some (deadline - now)
      else if deadline ≤ now ∧ now < expiry then
        some (max (expiry - now - 10000) 5000)
      else none

/-- A browser-level side effect issued by the loop detector or the
emergency-reset component. -/
inductive BrowserAction where
  | clearLocalStorage
  | clearSessionStorage
  | deleteIndexedDb (name : String)
  | clearCookies
  | signOutLocal
  | redirect (url : String)
deriving DecidableEq, Repr

/-- One run of the loop-detection effect of `useAuth.ts`: while `loading`
and not yet detected, record the loading start on first sight; once more
than 10 seconds have elapsed since that start, raise `authLoopDetected`,
clear `localStorage` and `sessionStorage`, issue a local-scope store
sign-out and hard-redirect to `/auth/login`. Leaving `loading` resets the
recorded start. -/
def checkAuthLoop (now : Int) (m : UserMgr) : UserMgr × List BrowserAction :=
  if m.auth.loading && !m.authLoopDetected then
    match m.loadingStart with
    | none => ({ m with loadingStart := some now }, [])
    | some t0 =>
        if now - t0 > 10000 then
          ({ m with authLoopDetected := true },
           [.clearLocalStorage, .clearSessionStorage, .signOutLocal,
            .redirect "/auth/login"])
        else (m, [])
  else if !m.auth.loading then
    ({ m with loadingStart := none }, [])
  else (m, [])

/-- `handleEmergencyReset` of `EmergencyAuthReset.tsx`: clear
`localStorage` and `sessionStorage`, delete the IndexedDB databases whose
name contains `supabase`, clear all cookies, then redirect to
`/auth/login`. This separate component path is the only place cookies are
cleared. -/
def handleEmergencyReset (dbNames : List String) : List BrowserAction :=
  [.clearLocalStorage, .clearSessionStorage] ++
    (dbNames.filter (fun n => (n.splitOn "supabase").length > 1)).map
      BrowserAction.deleteIndexedDb ++
    [.clearCookies, .redirect "/auth/login"]

/-- Kind of a store-pushed auth event, as the string the store delivers. -/
inductive AuthEventKind where
  | signedIn
  | signedOut
  | tokenRefreshed
  | otherEvent (name : String)
deriving DecidableEq, Repr

/-- The event-kind string used in the fingerprint. -/
def AuthEventKind.keyStr : AuthEventKind → String
  | .signedIn => "SIGNED_IN"
  | .signedOut => "SIGNED_OUT"
  | .tokenRefreshed => "TOKEN_REFRESHED"
  | .otherEvent n => n

/-- A store-pushed auth event: its kind and optional session payload. -/
structure AuthEvent where
  kind : AuthEventKind
  session : Option Session
deriving DecidableEq, Repr

/-- The duplicate-suppression fingerprint
`` `${event}-${session?.user?.id || 'null'}-${session?.expires_at || 'null'}` ``
of `useAuth.ts`, including the JavaScript falsiness of an empty user id
and of a zero expiry. -/
def eventKey (ev : AuthEvent) : String :=
  let uidPart :=
    match ev.session with
    | none => "null"
    | some s => if s.userId = "" then "null" else s.userId
  let expPart :=
    match ev.session with
    | none => "null"
    | some s =>
        match s.expiresAt with
        | none => "null"
        | some e => if e = 0 then "null" else toString e
  ev.kind.keyStr ++ "-" ++ uidPart ++ "-" ++ expPart

/-- `updateLastActivity` of `useAuth.ts`: stamp the activity time and
re-arm the 30-minute inactivity timer. -/
def updateLastActivity (now : Int) (m : UserMgr) : UserMgr :=
  { m with auth := { m.auth with lastActivity := now },
           activityTimer := some (30 * 60 * 1000) }

/-- Result of processing one pushed auth event: the new manager state,
whether the event was suppressed as a duplicate, and how many Profile
refetches it triggered. -/
structure EventOutcome where
  state : UserMgr
  suppressed : Bool
  profileFetches : Nat
deriving Repr

/-- The `onAuthStateChange` handler of `useAuth.ts`. First the duplicate
check: an event whose fingerprint is in the recently-seen set is dropped
with no effect. Otherwise the fingerprint is recorded (and the set is
trimmed to its 5 most recent entries once it exceeds 10), then the event
is dispatched: sign-out events (or a token refresh without a session)
clear user/profile/session and both timers; a token refresh with a
session updates the session, re-arms the renewal timer and refetches the
Profile only when the subject changed; a `SIGNED_IN` for the already
authenticated subject with a loaded Profile only updates the session;
a genuine sign-in and all other events with a session stamp activity,
install the session and refetch the Profile; other events without a
session clear everything. `profiles` models the store's Profile fetch. -/
def processEvent (now : Int) (profiles : String → Option Profile)
    (m : UserMgr) (ev : AuthEvent) : EventOutcome :=
  let key := eventKey ev
  if key ∈ m.processedEvents then
    ⟨m, true, 0⟩
  else
    let pe := m.processedEvents ++ [key]
    let pe := if pe.length > 10 then pe.drop (pe.length - 5) else pe
    let m := { m with processedEvents := pe }
    if ev.kind = .signedOut ∨ (ev.kind = .tokenRefreshed ∧ ev.session = none) then
      ⟨{ m with auth := { m.auth with user := none, profile := none,
                                      session := none, isRefreshing := false },
                refreshTimer := none, activityTimer := none }, false, 0⟩
    else
      match ev.session with
      | some s =>
          if ev.kind = .tokenRefreshed then
            let m1 := { m with auth :=
              { m.auth with user := some s.userId, session := some s,
                            isRefreshing := false, loading := false } }
            let m2 := setupTokenRefresh now m1 s
            if m.auth.user = some s.userId then ⟨m2, false, 0⟩
            else
              ⟨{ m2 with auth := { m2.auth with profile := profiles s.userId,
                                                loading := false } }, false, 1⟩
          else if ev.kind = .signedIn then
            if m.auth.user = some s.userId ∧ m.auth.profile.isSome ∧
                m.auth.session.isSome then
              let m1 := { m with auth :=
                { m.auth with session := some s, loading := false,
                              isRefreshing := false } }
              ⟨setupTokenRefresh now m1 s, false, 0⟩
            else
              let m1 := updateLastActivity now m
              let m2 := { m1 with auth :=
                { m1.auth with user := some s.userId, session := some s,
                               isRefreshing := false } }
              let m3 := setupTokenRefresh now m2 s
              ⟨{ m3 with auth := { m3.auth with profile := profiles s.userId,
                                                loading := false } }, false, 1⟩
          else
            let m1 := updateLastActivity now m
            let m2 := { m1 with auth :=
              { m1.auth with user := some s.userId, session := some s,
                             isRefreshing := false } }
            let m3 := setupTokenRefresh now m2 s
            ⟨{ m3 with auth := { m3.auth with profile := profiles s.userId,
                                              loading := false } }, false, 1⟩
      | none =>
          let m1 := updateLastActivity now m
          let m2 := { m1 with auth :=
            { m1.auth with user := none, session := none,
                           isRefreshing := false } }
          ⟨{ m2 with refreshTimer := none, activityTimer := none,
                     auth := { m2.auth with profile := none,
                                            loading := false } }, false, 0⟩

/-- Fold a list of pushed auth events through the handler, keeping the
state. -/
def runEvents (now : Int) (profiles : String → Option Profile)
    (m : UserMgr) (evs : List AuthEvent) : UserMgr :=
  evs.foldl (fun st ev => (processEvent now profiles st ev).state) m

/-- A token-refresh event for user `u` with expiry `e`. -/
def trEvent (e : Int) : AuthEvent :=
  ⟨.tokenRefreshed, some ⟨"u", some e⟩⟩

/-- Eleven token-refresh events with pairwise distinct fingerprints. -/
def elevenEvents : List AuthEvent :=
  [trEvent 1, trEvent 2, trEvent 3, trEvent 4, trEvent 5, trEvent 6,
   trEvent 7, trEvent 8, trEvent 9, trEvent 10, trEvent 11]

/-- A starting state for the duplicate-suppression run: user `u`
authenticated with a loaded Profile and an empty recently-seen set. -/
def dedupStart : UserMgr :=
  { auth := { user := some "u", profile := some ⟨"u", "u@x", "U", .operator, true⟩,
              loading := false, session := some ⟨"u", some 1⟩,
              isRefreshing := false, lastActivity := 0 },
    retryCount := 0, refreshTimer := none, activityTimer := none,
    processedEvents := [], loadingStart := none, authLoopDetected := false }

/-- A sample manager state used to instantiate witnesses on concrete
inputs. -/
def sampleMgr : UserMgr :=
  { auth := { user := some "u1", profile := some ⟨"u1", "u@x", "U", .operator, true⟩,
              loading := false, session := some ⟨"u1", some 2000⟩,
              isRefreshing := false, lastActivity := 0 },
    retryCount := 0, refreshTimer := some 5000, activityTimer := some 7000,
    processedEvents := [], loadingStart := none, authLoopDetected := false }

/-- A Service Session row of the `service_sessions` table, as written by
`ServiceAuthClient`: the store-generated id plus the inserted columns
(`expires_at` in ms since epoch). -/
structure ServiceSession where
  id : String
  station_id : String
  station_name : String
  location : String
  permissions : List String
  expires_at : Int
  active : Bool
deriving DecidableEq, Repr

/-- Local state of one `ServiceAuthClient` instance: the constructor
credentials and the private `sessionToken` / `sessionData` /
`refreshTimer` fields (the timer modelled by its delay in ms). -/
structure ServiceClient where
  stationId : String
  stationSecret : String
  sessionToken : Option String
  sessionData : Option ServiceSession
  refreshTimer : Option Int
deriving DecidableEq, Repr

/-- Outcome of the `authenticate_scanner_station` RPC as
`ServiceAuthClient.initialize` distinguishes it: a store error, a missing
payload, or a payload with its `success` flag, optional `error` message
and the station metadata. -/
inductive VerifyOutcome where
  | rpcError
  | noData
  | payload (success : Bool) (error : Option String) (station_name : String)
      (location : Option String) (permissions : Option (List String))
deriving DecidableEq, Repr

/-- Outcome of the `service_sessions` insert: failure, or success with
the store-generated row id. -/
inductive InsertOutcome where
  | fail
  | ok (id : String)
deriving DecidableEq, Repr

/-- The `{ success, error? }` result shape of the service client's
operations. -/
structure SvcResult where
  success : Bool
  error : Option String
deriving DecidableEq, Repr

/-- JavaScript `a || b` on an optional string: null/undefined and the
empty string fall back to `b`. -/
def orElseStr (a : Option String) (b : String) : String :=
  match a with
  | none => b
  | some s => if s = "" then b else s

/-- JavaScript `a || ['scan', 'update_status']` on an optional permission
array: only null/undefined falls back (an empty array is truthy). -/
def orElsePerms (a : Option (List String)) : List String :=
  match a with
  | none => ["scan", "update_status"]
  | some l => l

/-- Result of one `initialize()` run: the client state, the store's
`service_sessions` table, whether an insert was attempted, and the
returned result. -/
structure SvcInitStep where
  client : ServiceClient
  store : List ServiceSession
  insertAttempted : Bool
  result : SvcResult
deriving DecidableEq, Repr

/-- `ServiceAuthClient.initialize()`: verify the station credentials via
the RPC; on a store error or missing/unsuccessful payload return an
authentication error without touching the store. On success insert a
Service Session row expiring 12 hours from now that carries the returned
station name, location (falling back to the name) and permission set
(falling back to `['scan','update_status']`); if the insert fails return
a failed-to-create-session error and change nothing locally; only once
the row is created install it locally, set the session token and arm the
10-hour self-renewal timer. -/
def svcInit (now : Int) (c : ServiceClient) (store : List ServiceSession)
    (verify : VerifyOutcome) (ins : InsertOutcome) : SvcInitStep :=
  match verify with
  | .rpcError =>
      ⟨c, store, false,
       ⟨false, some "Invalid station credentials or authentication failed"⟩⟩
  | .noData => ⟨c, store, false, ⟨false, some "Authentication failed"⟩⟩
  | .payload success e nm loc pm =>
      if success then
        let row : ServiceSession :=
          { id := "", station_id := c.stationId, station_name := nm,
            location := orElseStr loc nm, permissions := orElsePerms pm,
            expires_at := now + 12 * 60 * 60 * 1000, active := true }
        match ins with
        | .fail =>
            ⟨c, store, true, ⟨false, some "Failed to create service session"⟩⟩
        | .ok rid =>
            let row := { row with id := rid }
            ⟨{ c with sessionData := some row,
                      sessionToken := some ("service_" ++ rid),
                      refreshTimer := some (10 * 60 * 60 * 1000) },
             store ++ [row], true, ⟨true, none⟩⟩
      else ⟨c, store, false, ⟨false, some (orElseStr e "Authentication failed")⟩⟩

/-- `ServiceAuthClient.isValidSession()`: the cached Service Session is
valid iff session data and token exist, the stored expiry is strictly in
the future, and the active flag is set. -/
def isValidSession (now : Int) (c : ServiceClient) : Bool :=
  match c.sessionData, c.sessionToken with
  | some sd, some _ => decide (now < sd.expires_at) && sd.active
  | _, _ => false

/-- Outcome of the `update_piece_status_via_scanner` RPC: a store error,
a JSON result with `success: false`, or success. -/
inductive RpcUpdateOutcome where
  | rpcErr (msg : String)
  | resultFail (e : String)
  | resultOk
deriving DecidableEq, Repr

/-- Outcome of the piece lookup of `getPieceInfo`. -/
inductive LookupOutcome where
  | found
  | missing
deriving DecidableEq, Repr

/-- Result of one externally callable service operation: final client and
store state, how many `initialize()` calls were made, whether an insert
was attempted, whether the store-side piece operation was invoked,
whether the session's `last_activity` was touched, and the returned
result. -/
structure SvcOpStep where
  client : ServiceClient
  store : List ServiceSession
  initCalls : Nat
  insertAttempted : Bool
  storeOpCalled : Bool
  activityTouched : Bool
  result : SvcResult
deriving DecidableEq, Repr

/-- The store-call part of `updatePieceStatus` (after any lazy
re-authentication): invoke the atomic update RPC, surface its error
verbatim, and on success best-effort touch the session's last-activity
timestamp. -/
def runUpdate (c : ServiceClient) (store : List ServiceSession)
    (initCalls : Nat) (ia : Bool) (rpc : RpcUpdateOutcome) : SvcOpStep :=
  match rpc with
  | .rpcErr msg => ⟨c, store, initCalls, ia, true, false, ⟨false, some msg⟩⟩
  | .resultFail e => ⟨c, store, initCalls, ia, true, false, ⟨false, some e⟩⟩
  | .resultOk =>
      ⟨c, store, initCalls, ia, true, c.sessionData.isSome, ⟨true, none⟩⟩

/-- The store-call part of `getPieceInfo`: read-only piece lookup. -/
def runLookup (c : ServiceClient) (store : List ServiceSession)
    (initCalls : Nat) (ia : Bool) (lk : LookupOutcome) : SvcOpStep :=
  match lk with
  | .found => ⟨c, store, initCalls, ia, true, false, ⟨true, none⟩⟩
  | .missing =>
      ⟨c, store, initCalls, ia, true, false, ⟨false, some "Piece not found"⟩⟩

/-- `ServiceAuthClient.updatePieceStatus`: if the cached Service Session
is invalid, first run `initialize()` once (with the stored credentials);
if that fails, return its error without calling the store; otherwise
perform the atomic status-update call. -/
def updatePieceStatus (now : Int) (c : ServiceClient)
    (store : List ServiceSession) (verify : VerifyOutcome)
    (ins : InsertOutcome) (rpc : RpcUpdateOutcome) : SvcOpStep :=
  if isValidSession now c then
    runUpdate c store 0 false rpc
  else
    let st := svcInit now c store verify ins
    if st.result.success then runUpdate st.client st.store 1 st.insertAttempted rpc
    else
      ⟨st.client, st.store, 1, st.insertAttempted, false, false,
       ⟨false, st.result.error⟩⟩

/-- `ServiceAuthClient.getPieceInfo`: same lazy re-authentication, then
the read-only lookup. -/
def getPieceInfo (now : Int) (c : ServiceClient)
    (store : List ServiceSession) (verify : VerifyOutcome)
    (ins : InsertOutcome) (lk : LookupOutcome) : SvcOpStep :=
  if isValidSession now c then
    runLookup c store 0 false lk
  else
    let st := svcInit now c store verify ins
    if st.result.success then runLookup st.client st.store 1 st.insertAttempted lk
    else
      ⟨st.client, st.store, 1, st.insertAttempted, false, false,
       ⟨false, st.result.error⟩⟩

/-- `ServiceAuthClient.cleanup()`: cancel the renewal timer, mark the
cached Service Session row inactive in the store (best-effort), then
clear all local credential/session state. -/
def cleanup (c : ServiceClient) (store : List ServiceSession) :
    ServiceClient × List ServiceSession :=
  let c1 : ServiceClient := { c with refreshTimer := none }
  let store1 :=
    match c1.sessionData with
    | none => store
    | some sd =>
        store.map (fun r => if r.id = sd.id then { r with active := false } else r)
  ({ c1 with sessionToken := none, sessionData := none }, store1)

/-- A sample service client with no cached session, for witnesses. -/
def sampleSvc : ServiceClient :=
  { stationId := "STATION_CUTTING_01", stationSecret := "s3cret",
    sessionToken := none, sessionData := none, refreshTimer := none }

/-- C1: a non-forced `refreshSession` call made while a renewal is already
in flight returns immediately with a null result and changes nothing:
state (Session, Profile, retry counter, armed timers) is exactly as
before, the store's renew operation is not invoked, no retry is scheduled
and no sign-out happens. -/
theorem refreshSession_inflight_noop (now : Int) (m : UserMgr)
    (outcome : RefreshOutcome) (sOk : Bool)
    (h : m.auth.isRefreshing = true) :
    refreshSession now m false outcome sOk =
      (m, ⟨false, none, false⟩, ⟨none, none⟩) := by
  simp [refreshSession, h]

/-- Witness for C1 at a concrete in-flight state. -/
theorem refreshSession_inflight_noop_witness :
    ({ sampleMgr with
        auth := { sampleMgr.auth with isRefreshing := true } } : UserMgr).auth.isRefreshing
      = true ∧
    refreshSession 0
        { sampleMgr with auth := { sampleMgr.auth with isRefreshing := true } }
        false .errOther true =
      ({ sampleMgr with auth := { sampleMgr.auth with isRefreshing := true } },
       ⟨false, none, false⟩, ⟨none, none⟩) :=
  ⟨rfl, refreshSession_inflight_noop 0 _ .errOther true rfl⟩

/-- C2: when the store's renew operation fails with an invalid/missing
refresh-credential error (returned or thrown), `refreshSession` clears
user, Profile and Session to `null`, resets the retry counter to 0,
leaves both timers untouched, schedules no retry, invokes no sign-out,
and returns the error to the caller — from any entry retry-counter
value. -/
theorem refreshSession_invalid_clears (now : Int) (m : UserMgr)
    (forced : Bool) (outcome : RefreshOutcome) (sOk : Bool)
    (hg : m.auth.isRefreshing = false ∨ forced = true)
    (hi : outcome = .errInvalid ∨ outcome = .exnInvalid) :
    (refreshSession now m forced outcome sOk).1.auth.user = none ∧
    (refreshSession now m forced outcome sOk).1.auth.profile = none ∧
    (refreshSession now m forced outcome sOk).1.auth.session = none ∧
    (refreshSession now m forced outcome sOk).1.auth.isRefreshing = false ∧
    (refreshSession now m forced outcome sOk).1.retryCount = 0 ∧
    (refreshSession now m forced outcome sOk).1.refreshTimer = m.refreshTimer ∧
    (refreshSession now m forced outcome sOk).1.activityTimer = m.activityTimer ∧
    (refreshSession now m forced outcome sOk).2.1.scheduledRetryDelay = none ∧
    (refreshSession now m forced outcome sOk).2.1.signOutInvoked = false ∧
    (refreshSession now m forced outcome sOk).2.2.error = some outcome ∧
    (refreshSession now m forced outcome sOk).2.2.data = none := by
  have hguard : (m.auth.isRefreshing && !forced) = false := by
    rcases hg with h | h <;> simp [h]
  rcases hi with h | h <;> subst h <;>
    simp [refreshSession, hguard]

/-- Witness for C2 at a concrete state with a nonzero entry retry
counter. -/
theorem refreshSession_invalid_clears_witness :
    (refreshSession 0 { sampleMgr with retryCount := 2 } false .errInvalid true).1.auth.user
      = none ∧
    (refreshSession 0 { sampleMgr with retryCount := 2 } false .errInvalid true).1.retryCount
      = 0 :=
  ⟨(refreshSession_invalid_clears 0 { sampleMgr with retryCount := 2 } false .errInvalid
      true (Or.inl rfl) (Or.inl rfl)).1,
   (refreshSession_invalid_clears 0 { sampleMgr with retryCount := 2 } false .errInvalid
      true (Or.inl rfl) (Or.inl rfl)).2.2.2.2.1⟩

/-- C3: on a transient (non-credential) renewal failure the retry counter
is incremented to `n = entry + 1`; while `n` is below the cap of 3 a
forced retry is scheduled after exactly `2^n` seconds, the Session is not
destroyed and no sign-out happens; once `n` reaches the cap, no retry is
scheduled, the counter is reset to 0 and a full sign-out is invoked
instead. -/
theorem refreshSession_transient_backoff (now : Int) (m : UserMgr)
    (forced : Bool) (outcome : RefreshOutcome) (sOk : Bool)
    (hg : m.auth.isRefreshing = false ∨ forced = true)
    (ht : outcome = .errOther ∨ outcome = .exnOther) :
    (m.retryCount + 1 < maxRetries →
      (refreshSession now m forced outcome sOk).1.retryCount = m.retryCount + 1 ∧
      (refreshSession now m forced outcome sOk).2.1.scheduledRetryDelay =
        some ((2 : Int) ^ (m.retryCount + 1) * 1000) ∧
      (refreshSession now m forced outcome sOk).1.auth.session = m.auth.session ∧
      (refreshSession now m forced outcome sOk).1.auth.user = m.auth.user ∧
      (refreshSession now m forced outcome sOk).2.1.signOutInvoked = false) ∧
    (¬ m.retryCount + 1 < maxRetries →
      (refreshSession now m forced outcome sOk).2.1.scheduledRetryDelay = none ∧
      (refreshSession now m forced outcome sOk).2.1.signOutInvoked = true ∧
      (refreshSession now m forced outcome sOk).1.retryCount = 0) := by
  have hguard : (m.auth.isRefreshing && !forced) = false := by
    rcases hg with h | h <;> simp [h]
  rcases ht with h | h <;> subst h <;>
    constructor <;> intro hn <;>
      simp [refreshSession, hguard, hn]

/-- Witness for C3: the under-cap branch at entry counter 1 (delay `2^2`
seconds) and the at-cap branch at entry counter 2 (sign-out, no retry). -/
theorem refreshSession_transient_backoff_witness :
    ((refreshSession 0 { sampleMgr with retryCount := 1 } false .errOther true).1.retryCount
        = 2 ∧
      (refreshSession 0 { sampleMgr with retryCount := 1 } false .errOther true).2.1.scheduledRetryDelay
        = some ((2 : Int) ^ 2 * 1000) ∧
      (refreshSession 0 { sampleMgr with retryCount := 1 } false .errOther true).1.auth.session
        = sampleMgr.auth.session ∧
      (refreshSession 0 { sampleMgr with retryCount := 1 } false .errOther true).1.auth.user
        = sampleMgr.auth.user ∧
      (refreshSession 0 { sampleMgr with retryCount := 1 } false .errOther true).2.1.signOutInvoked
        = false) ∧
    ((refreshSession 0 { sampleMgr with retryCount := 2 } false .errOther true).2.1.scheduledRetryDelay
        = none ∧
      (refreshSession 0 { sampleMgr with retryCount := 2 } false .errOther true).2.1.signOutInvoked
        = true ∧
      (refreshSession 0 { sampleMgr with retryCount := 2 } false .errOther true).1.retryCount
        = 0) :=
  ⟨(refreshSession_transient_backoff 0 { sampleMgr with retryCount := 1 } false .errOther
      true (Or.inl rfl) (Or.inl rfl)).1 (by decide),
   (refreshSession_transient_backoff 0 { sampleMgr with retryCount := 2 } false .errOther
      true (Or.inl rfl) (Or.inl rfl)).2 (by decide)⟩

/-- C10 (implicit): every completed `refreshSession` invocation that was
not short-circuited by the in-flight guard — success, invalid-credential
failure, transient failure under or at the retry cap, or a thrown error —
leaves `isRefreshing = false`, so no completed renewal can leave the
manager stuck in the refreshing sub-state. -/
theorem refreshSession_clears_isRefreshing (now : Int) (m : UserMgr)
    (forced : Bool) (outcome : RefreshOutcome) (sOk : Bool)
    (hg : m.auth.isRefreshing = false ∨ forced = true) :
    (refreshSession now m forced outcome sOk).1.auth.isRefreshing = false := by
  have hguard : (m.auth.isRefreshing && !forced) = false := by
    rcases hg with h | h <;> simp [h]
  cases outcome <;>
    simp only [refreshSession, hguard, Bool.false_and, Bool.and_false] <;>
    simp [signOutStep] <;>
    split <;> simp [signOutStep]

/-- Witness for C10 at a concrete state and a transient at-cap outcome. -/
theorem refreshSession_clears_isRefreshing_witness :
    (refreshSession 0 { sampleMgr with retryCount := 2 } false .exnOther false).1.auth.isRefreshing
      = false :=
  refreshSession_clears_isRefreshing 0 { sampleMgr with retryCount := 2 } false .exnOther
    false (Or.inl rfl)

/-- C7 counterexample: the spec-worded scheduler and the code disagree.
With the session expiring 120 s from now (deadline passed 3 min ago,
session not yet expired) the claim arms `max(110s, 5s)` while the code
arms nothing; with the session expiring 330 s from now (deadline 30 s
ahead, within the 1-minute window) the code arms `max(30s - 10s, 5s)`
while the claim's three cases arm nothing. -/
theorem setupTokenRefresh_spec_divergence :
    (setupTokenRefresh 0 sampleMgr ⟨"u", some 120⟩).refreshTimer = none ∧
    setupTokenRefreshSpec 0 ⟨"u", some 120⟩ = some 110000 ∧
    (setupTokenRefresh 0 sampleMgr ⟨"u", some 330⟩).refreshTimer = some 20000 ∧
    setupTokenRefreshSpec 0 ⟨"u", some 330⟩ = none := by
  refine ⟨rfl, rfl, rfl, rfl⟩

/-- C7 (amended): `setupTokenRefresh` computes the renewal deadline
5 minutes before expiry; with `t` the time until that deadline, it arms a
timer for exactly `t` when the deadline is more than 1 minute ahead, a
short timer `max(t - 10s, 5s)` when the deadline is at most 1 minute
ahead but not yet passed, and no timer once the deadline has passed
(even if the session itself has not yet expired); the previously armed
renewal timer is always cancelled and nothing else changes. -/
theorem setupTokenRefresh_code_behavior (now : Int) (m : UserMgr)
    (s : Session) (e : Int) (h : s.expiresAt = some e) :
    ((e * 1000 - 5 * 60 * 1000 - now > 60000 →
        (setupTokenRefresh now m s).refreshTimer =
          some (e * 1000 - 5 * 60 * 1000 - now)) ∧
      (0 < e * 1000 - 5 * 60 * 1000 - now ∧
          e * 1000 - 5 * 60 * 1000 - now ≤ 60000 →
        (setupTokenRefresh now m s).refreshTimer =
          some (max (e * 1000 - 5 * 60 * 1000 - now - 10000) 5000)) ∧
      (e * 1000 - 5 * 60 * 1000 - now ≤ 0 →
        (setupTokenRefresh now m s).refreshTimer = none)) ∧
    (setupTokenRefresh now m s).auth = m.auth ∧
    (setupTokenRefresh now m s).activityTimer = m.activityTimer ∧
    (setupTokenRefresh now m s).retryCount = m.retryCount := by
  refine ⟨⟨?_, ?_, ?_⟩, ?_, ?_, ?_⟩
  · intro h1
    simp only [setupTokenRefresh, h]
    split_ifs
    rfl
  · rintro ⟨h1, h2⟩
    simp only [setupTokenRefresh, h]
    split_ifs <;> first | rfl | omega
  · intro h1
    simp only [setupTokenRefresh, h]
    split_ifs <;> first | rfl | omega
  · simp only [setupTokenRefresh, h]
    split_ifs <;> rfl
  · simp only [setupTokenRefresh, h]
    split_ifs <;> rfl
  · simp only [setupTokenRefresh, h]
    split_ifs <;> rfl

/-- Witness for C7 (amended) covering all three scheduling regions. -/
theorem setupTokenRefresh_code_behavior_witness :
    (setupTokenRefresh 0 sampleMgr ⟨"u", some 1000⟩).refreshTimer = some 700000 ∧
    (setupTokenRefresh 0 sampleMgr ⟨"u", some 330⟩).refreshTimer =
      some (max (330 * 1000 - 5 * 60 * 1000 - 0 - 10000) 5000) ∧
    (setupTokenRefresh 0 sampleMgr ⟨"u", some 120⟩).refreshTimer = none :=
  ⟨(setupTokenRefresh_code_behavior 0 sampleMgr ⟨"u", some 1000⟩ 1000 rfl).1.1
      (by decide),
   (setupTokenRefresh_code_behavior 0 sampleMgr ⟨"u", some 330⟩ 330 rfl).1.2.1
      (by decide),
   (setupTokenRefresh_code_behavior 0 sampleMgr ⟨"u", some 120⟩ 120 rfl).1.2.2
      (by decide)⟩

/-- C8 counterexample: at the exact triggering point of the 10-second
loop detector (loading since t0 = 0, checked at 11 s) the flag is raised
and storage is cleared, but no cookie-clearing action is issued by this
path — cookies are cleared only by the separate emergency-reset
component. -/
theorem checkAuthLoop_no_cookie_clear :
    (checkAuthLoop 11000 { sampleMgr with
        auth := { sampleMgr.auth with loading := true },
        loadingStart := some 0 }).1.authLoopDetected = true ∧
    BrowserAction.clearCookies ∉
      (checkAuthLoop 11000 { sampleMgr with
          auth := { sampleMgr.auth with loading := true },
          loadingStart := some 0 }).2 ∧
    BrowserAction.clearCookies ∈ handleEmergencyReset [] := by
  refine ⟨rfl, by decide, by decide⟩

/-- C8 (amended): when the loop check runs after the manager has been
continuously in `loading` for more than 10 seconds (start recorded at
`t0`, not yet detected), the loop-detected flag becomes true and exactly
these actions are issued: clear `localStorage`, clear `sessionStorage`,
local-scope store sign-out, hard redirect to `/auth/login` — cookies are
not cleared on this path. -/
theorem checkAuthLoop_detection (now t0 : Int) (m : UserMgr)
    (hl : m.auth.loading = true) (hd : m.authLoopDetected = false)
    (hs : m.loadingStart = some t0) (ht : now - t0 > 10000) :
    (checkAuthLoop now m).1.authLoopDetected = true ∧
    (checkAuthLoop now m).2 =
      [.clearLocalStorage, .clearSessionStorage, .signOutLocal,
       .redirect "/auth/login"] := by
  simp [checkAuthLoop, hl, hd, hs, ht]

/-- Witness for C8 (amended) at 11 s of continuous loading. -/
theorem checkAuthLoop_detection_witness :
    (checkAuthLoop 11000 { dedupStart with
        auth := { dedupStart.auth with loading := true },
        loadingStart := some 0 }).1.authLoopDetected = true ∧
    (checkAuthLoop 11000 { dedupStart with
        auth := { dedupStart.auth with loading := true },
        loadingStart := some 0 }).2 =
      [.clearLocalStorage, .clearSessionStorage, .signOutLocal,
       .redirect "/auth/login"] :=
  checkAuthLoop_detection 11000 0 _ rfl rfl rfl (by decide)

/-- C4 counterexample: the recently-seen set is trimmed to its 5 most
recent fingerprints once it exceeds 10 entries, so a duplicate of an
evicted fingerprint is processed again. After eleven distinct
token-refresh events, a repeat of the very first event (same fingerprint,
processed as the head of the sequence) is not suppressed and changes the
state: the installed session's expiry moves from 11 back to 1. -/
theorem processEvent_dedup_counterexample :
    elevenEvents.head? = some (trEvent 1) ∧
    (processEvent 0 (fun _ => none)
        (runEvents 0 (fun _ => none) dedupStart elevenEvents)
        (trEvent 1)).suppressed = false ∧
    (runEvents 0 (fun _ => none) dedupStart elevenEvents).auth.session =
      some ⟨"u", some 11⟩ ∧
    (processEvent 0 (fun _ => none)
        (runEvents 0 (fun _ => none) dedupStart elevenEvents)
        (trEvent 1)).state.auth.session = some ⟨"u", some 1⟩ := by
  refine ⟨rfl, rfl, rfl, rfl⟩

/-- C4 (amended): an auth event whose fingerprint is still present in
the recently-seen set is a complete no-op — no state change and no
Profile refetch; since the set keeps at most the 10 most recent
fingerprints (trimmed to 5 on overflow), this suppression is guaranteed
only while the fingerprint remains in the set. -/
theorem processEvent_duplicate_noop (now : Int)
    (profiles : String → Option Profile) (m : UserMgr) (ev : AuthEvent)
    (h : eventKey ev ∈ m.processedEvents) :
    (processEvent now profiles m ev).state = m ∧
    (processEvent now profiles m ev).suppressed = true ∧
    (processEvent now profiles m ev).profileFetches = 0 := by
  simp [processEvent, h]

/-- Witness for C4 (amended): a duplicate of an already-recorded
fingerprint is dropped. -/
theorem processEvent_duplicate_noop_witness :
    (processEvent 0 (fun _ => none)
        { dedupStart with processedEvents := [eventKey (trEvent 1)] }
        (trEvent 1)).state =
      { dedupStart with processedEvents := [eventKey (trEvent 1)] } ∧
    (processEvent 0 (fun _ => none)
        { dedupStart with processedEvents := [eventKey (trEvent 1)] }
        (trEvent 1)).suppressed = true ∧
    (processEvent 0 (fun _ => none)
        { dedupStart with processedEvents := [eventKey (trEvent 1)] }
        (trEvent 1)).profileFetches = 0 :=
  processEvent_duplicate_noop 0 (fun _ => none)
    { dedupStart with processedEvents := [eventKey (trEvent 1)] }
    (trEvent 1) (by simp)

/-- C5: `initialize(stationId, stationSecret)` returns an authentication
error and attempts no insert (store and client untouched) when the
station verification reports a store error, returns no payload, or
reports `success: false`; on a successful verification it inserts a row
expiring exactly 12 hours from now carrying the returned name, location
and permission set — if the insert fails it returns the
failed-to-create-session error and does not mark the manager
authenticated (client untouched, no timer armed), and only on a confirmed
insert does it install the session, set the token and arm the renewal
timer. -/
theorem svcInit_spec (now : Int) (c : ServiceClient)
    (store : List ServiceSession) (ins : InsertOutcome) :
    (svcInit now c store .rpcError ins =
      ⟨c, store, false,
       ⟨false, some "Invalid station credentials or authentication failed"⟩⟩) ∧
    (svcInit now c store .noData ins =
      ⟨c, store, false, ⟨false, some "Authentication failed"⟩⟩) ∧
    (∀ e nm loc pm, svcInit now c store (.payload false e nm loc pm) ins =
      ⟨c, store, false, ⟨false, some (orElseStr e "Authentication failed")⟩⟩) ∧
    (∀ e nm l p rid, l ≠ "" →
      (svcInit now c store (.payload true e nm (some l) (some p)) .fail =
        ⟨c, store, true, ⟨false, some "Failed to create service session"⟩⟩) ∧
      (svcInit now c store (.payload true e nm (some l) (some p)) (.ok rid) =
        ⟨{ c with
            sessionData :=
              some ⟨rid, c.stationId, nm, l, p, now + 12 * 60 * 60 * 1000, true⟩,
            sessionToken := some ("service_" ++ rid),
            refreshTimer := some (10 * 60 * 60 * 1000) },
         store ++ [⟨rid, c.stationId, nm, l, p, now + 12 * 60 * 60 * 1000, true⟩],
         true, ⟨true, none⟩⟩)) := by
  refine ⟨rfl, rfl, fun e nm loc pm => rfl, fun e nm l p rid hl => ⟨rfl, ?_⟩⟩
  simp [svcInit, orElseStr, orElsePerms, hl]

/-- Witness for C5: the wrong-secret scenario and both insert outcomes at
concrete inputs. -/
theorem svcInit_spec_witness :
    (svcInit 0 sampleSvc [] (.payload false (some "Invalid station credentials")
        "" none none) .fail =
      ⟨sampleSvc, [], false, ⟨false, some "Invalid station credentials"⟩⟩) ∧
    (svcInit 0 sampleSvc [] (.payload true none "Cutting" (some "Hall A")
        (some ["scan"])) .fail =
      ⟨sampleSvc, [], true, ⟨false, some "Failed to create service session"⟩⟩) ∧
    (svcInit 0 sampleSvc [] (.payload true none "Cutting" (some "Hall A")
        (some ["scan"])) (.ok "r1") =
      ⟨{ sampleSvc with
          sessionData :=
            some ⟨"r1", "STATION_CUTTING_01", "Cutting", "Hall A", ["scan"],
                  43200000, true⟩,
          sessionToken := some "service_r1",
          refreshTimer := some 36000000 },
       [⟨"r1", "STATION_CUTTING_01", "Cutting", "Hall A", ["scan"],
         43200000, true⟩],
       true, ⟨true, none⟩⟩) := by
  refine ⟨?_, ?_, ?_⟩
  · exact (svcInit_spec 0 sampleSvc [] .fail).2.2.1
      (some "Invalid station credentials") "" none none
  · exact ((svcInit_spec 0 sampleSvc [] .fail).2.2.2 none "Cutting" "Hall A"
      ["scan"] "r1" (by decide)).1
  · exact ((svcInit_spec 0 sampleSvc [] (.ok "r1")).2.2.2 none "Cutting" "Hall A"
      ["scan"] "r1" (by decide)).2

/-- C6: when the locally cached Service Session is invalid (absent,
expired, or inactive), `updatePieceStatus` and `getPieceInfo` each make
exactly one `initialize()` call before the store operation; if that
re-initialization fails, the operation returns the initialization's
error and performs no store call. -/
theorem svcOps_lazy_reauth (now : Int) (c : ServiceClient)
    (store : List ServiceSession) (verify : VerifyOutcome)
    (ins : InsertOutcome) (rpc : RpcUpdateOutcome) (lk : LookupOutcome)
    (h : isValidSession now c = false) :
    (updatePieceStatus now c store verify ins rpc).initCalls = 1 ∧
    (getPieceInfo now c store verify ins lk).initCalls = 1 ∧
    ((svcInit now c store verify ins).result.success = false →
      (updatePieceStatus now c store verify ins rpc).storeOpCalled = false ∧
      (updatePieceStatus now c store verify ins rpc).result =
        ⟨false, (svcInit now c store verify ins).result.error⟩ ∧
      (getPieceInfo now c store verify ins lk).storeOpCalled = false ∧
      (getPieceInfo now c store verify ins lk).result =
        ⟨false, (svcInit now c store verify ins).result.error⟩) := by
  refine ⟨?_, ?_, fun hf => ?_⟩
  · simp only [updatePieceStatus, h, Bool.false_eq_true, if_false]
    split
    · cases rpc <;> rfl
    · rfl
  · simp only [getPieceInfo, h, Bool.false_eq_true, if_false]
    split
    · cases lk <;> rfl
    · rfl
  · refine ⟨?_, ?_, ?_, ?_⟩ <;>
      simp [updatePieceStatus, getPieceInfo, h, hf]

/-- Witness for C6: an expired cached session and a failing
re-initialization. -/
theorem svcOps_lazy_reauth_witness :
    (updatePieceStatus 50 { sampleSvc with
        sessionData := some ⟨"r0", "STATION_CUTTING_01", "Cutting", "Hall A",
                             ["scan"], 10, true⟩,
        sessionToken := some "service_r0" } [] .rpcError .fail .resultOk).initCalls
      = 1 ∧
    (updatePieceStatus 50 { sampleSvc with
        sessionData := some ⟨"r0", "STATION_CUTTING_01", "Cutting", "Hall A",
                             ["scan"], 10, true⟩,
        sessionToken := some "service_r0" } [] .rpcError .fail .resultOk).storeOpCalled
      = false := by
  have h := svcOps_lazy_reauth 50 { sampleSvc with
      sessionData := some ⟨"r0", "STATION_CUTTING_01", "Cutting", "Hall A",
                           ["scan"], 10, true⟩,
      sessionToken := some "service_r0" } [] .rpcError .fail .resultOk .found
    (by decide)
  exact ⟨h.1, (h.2.2 (by decide)).1⟩

/-- C9: a successful `initialize()` followed immediately by `cleanup()`
leaves no armed renewal timer, clears the local session token and session
data, and the store's Service Session table is the original table (with
any same-id rows deactivated) plus the newly inserted row now marked
`active = false`. -/
theorem svcInit_cleanup_roundtrip (now : Int) (c : ServiceClient)
    (store : List ServiceSession) (e : Option String) (nm : String)
    (loc : Option String) (pm : Option (List String)) (rid : String) :
    cleanup (svcInit now c store (.payload true e nm loc pm) (.ok rid)).client
        (svcInit now c store (.payload true e nm loc pm) (.ok rid)).store =
      ({ c with sessionToken := none, sessionData := none, refreshTimer := none },
       store.map (fun r => if r.id = rid then { r with active := false } else r) ++
         [⟨rid, c.stationId, nm, orElseStr loc nm, orElsePerms pm,
           now + 12 * 60 * 60 * 1000, false⟩]) := by
  simp [svcInit, cleanup]

end GlassTrace
